import Mathlib

/-!
Shallow embedding of `admin.py` from HikingHacker/Resume-Improvement-App.

The script is single-threaded glue code: a one-argument dispatcher over
seven straight-line procedures, each of which shells out through a single
process runner (`run_command`), prints coloured status lines, and — in the
backup path — manipulates the filesystem.

Modelling choices:
  * Console output is a trace: a `List String`, one entry per Python
    `print` call (colour escape codes included, so byte-level claims about
    output make sense).
  * `sys.exit(code)` is the error channel of the monad `M` below
    (`Except.error code`); a run that ends in `Except.ok` corresponds to
    the process finishing normally with exit status 0.
  * The external world (subprocess results, interactive input, HTTP
    responses, the git tree, filesystem faults) is a `World` record of
    pure functions; each embedded procedure takes the `World` it runs in.
  * Python `Exception`s that `create_backup`'s `try/except Exception`
    can catch are modelled as `Except String` values threaded through the
    body of the `try:` block; `SystemExit` raised by `sys.exit` inside
    `run_command` is NOT of that shape — exactly as in CPython, where
    `SystemExit` does not derive from `Exception` — and instead uses the
    monad's error channel, escaping the handler.
  * The transient backup directory and the produced archive are tracked in
    the state: `files` is the set of (relative path, content) pairs
    currently under the backup directory, `dirExists` its existence,
    `archive` the name and contents of the tarball once `tar -czf` has run.
-/

/-- Configuration constant from admin.py. -/
def GITHUB_REMOTE : String := "master"

/-- Configuration constant from admin.py. -/
def HEROKU_REMOTE : String := "heroku"

/-- Configuration constant from admin.py. -/
def GITHUB_USERNAME : String := "HikingHacker"

/-- Configuration constant from admin.py. -/
def REPO_NAME : String := "Resume-Improvement-App"

/-- Configuration constant from admin.py. -/
def GITHUB_PAGES_URL : String := "https://" ++ GITHUB_USERNAME ++ ".github.io/" ++ REPO_NAME

/-- Configuration constant from admin.py. -/
def GITHUB_REPO_URL : String := "git@github.com:" ++ GITHUB_USERNAME ++ "/" ++ REPO_NAME ++ ".git"

/-- Configuration constant from admin.py. -/
def HEROKU_APP_NAME : String := "resume-improvement-api-b20bfe5902cf"

/-- Configuration constant from admin.py. -/
def HEROKU_URL : String := "https://" ++ HEROKU_APP_NAME ++ ".herokuapp.com"

/-- Configuration constant from admin.py. -/
def HEROKU_API_HEALTH_URL : String := HEROKU_URL ++ "/api/health"

namespace Colors

def HEADER : String := "\x1b[95m"

def BLUE : String := "\x1b[94m"

def GREEN : String := "\x1b[92m"

def YELLOW : String := "\x1b[93m"

def RED : String := "\x1b[91m"

def ENDC : String := "\x1b[0m"

def BOLD : String := "\x1b[1m"

def UNDERLINE : String := "\x1b[4m"

end Colors

/-- The exact string printed by `print_header(text)`. -/
def header_s (text : String) : String :=
  "\n" ++ Colors.HEADER ++ Colors.BOLD ++ "=== " ++ text ++ " ===" ++ Colors.ENDC ++ "\n"

/-- The exact string printed by `print_success(text)`. -/
def success_s (text : String) : String := Colors.GREEN ++ "✓ " ++ text ++ Colors.ENDC

/-- The exact string printed by `print_error(text)`. -/
def error_s (text : String) : String := Colors.RED ++ "✗ " ++ text ++ Colors.ENDC

/-- The exact string printed by `print_info(text)`. -/
def info_s (text : String) : String := Colors.BLUE ++ "ℹ " ++ text ++ Colors.ENDC

/-- The exact string printed by `print_warning(text)`. -/
def warning_s (text : String) : String := Colors.YELLOW ++ "⚠ " ++ text ++ Colors.ENDC

/-- Result of one `subprocess.run` invocation, as captured by the world. -/
structure CmdResult where
  stdout : String
  stderr : String
  returncode : Int
deriving Repr, DecidableEq

/-- Outcome of one `requests.get` call: either a response with a status
code and (for the Heroku health endpoint) an optional successfully-parsed,
pretty-printed JSON body (`none` models `response.json()` raising), or a
raised exception carrying `str(e)`. -/
inductive HttpResult where
  | resp (status : Int) (jsonBody : Option String)
  | exc (msg : String)
deriving Repr, DecidableEq

/-- Program state threaded by the embedding: the console output so far and
the filesystem facts the backup path manipulates (contents of the
transient backup directory, its existence, and the produced archive). -/
structure BSt where
  out : List String
  files : List (String × String)
  dirExists : Bool
  archive : Option (String × List (String × String))
deriving Repr, DecidableEq

/-- The initial state: nothing printed, no backup dir, no archive. -/
def initSt : BSt := ⟨[], [], false, none⟩

/-- The effect monad: state transformer over `BSt` with `sys.exit code`
as error channel. `Except.ok` means the procedure fell through normally. -/
def M (α : Type) : Type := BSt → BSt × Except Nat α

/-- Monadic unit for `M`. -/
def pureM {α : Type} (a : α) : M α := fun s => (s, Except.ok a)

/-- Monadic bind for `M`: `sys.exit` short-circuits. -/
def bindM {α β : Type} (m : M α) (f : α → M β) : M β := fun s =>
  match m s with
  | (s', Except.ok a) => f a s'
  | (s', Except.error c) => (s', Except.error c)

instance : Monad M where
  pure := pureM
  bind := bindM


/-- Append one printed line to the output trace. -/
def emitS (s : BSt) (line : String) : BSt := { s with out := s.out ++ [line] }

/-- One Python `print(line)` call. -/
def print_raw (line : String) : M Unit := fun s => (emitS s line, Except.ok ())

/-- `print_header` from admin.py. -/
def print_header (text : String) : M Unit := print_raw (header_s text)

/-- `print_success` from admin.py. -/
def print_success (text : String) : M Unit := print_raw (success_s text)

/-- `print_error` from admin.py. -/
def print_error (text : String) : M Unit := print_raw (error_s text)

/-- `print_info` from admin.py. -/
def print_info (text : String) : M Unit := print_raw (info_s text)

/-- `print_warning` from admin.py. -/
def print_warning (text : String) : M Unit := print_raw (warning_s text)

/-- `sys.exit(code)`. -/
def sys_exit {α : Type} (code : Nat) : M α := fun s => (s, Except.error code)

/-- The external world: results of shell commands (keyed by the command
string and the optional working directory, `none` meaning the default
`PROJECT_ROOT`), interactive answers (keyed by the prompt text), HTTP
outcomes (keyed by URL), the wall clock, the tree that
`git archive HEAD | tar -x` exports, filesystem contents for untracked
files (`none` = `os.path.isfile` is false), and fault injection for
`os.makedirs`, `shutil.copy2` and `shutil.rmtree` (`some e` = the call
raises an `Exception` whose `str` is `e`). -/
structure World where
  runCmd : String → Option String → CmdResult
  ask : String → String
  get : String → HttpResult
  now : String
  headTree : List (String × String)
  fileContent : String → Option String
  mkdirsErr : String → Option String
  copyErr : String → Option String
  rmtreeErr : String → Option String

/-- Python truthiness helper: the strict paths of `run_command` only ever
hand the caller `some` stdout, so `getD ""` is the value actually seen. -/
def pyStr (o : Option String) : String := o.getD ""

/-- Python `str.lower()` (ASCII case folding, which covers every string
the dispatcher compares against). Defined structurally over the character
list so that it computes by `rfl`. -/
def py_lower (s : String) : String := ⟨s.data.map Char.toLower⟩

/-- Python `str.strip()`: remove leading and trailing whitespace.
Defined structurally over the character list so that it computes. -/
def py_strip (s : String) : String :=
  ⟨((s.data.dropWhile Char.isWhitespace).reverse.dropWhile Char.isWhitespace).reverse⟩

/-- Split a character list at every occurrence of `c` (Python
`str.split(sep)` semantics: `n` separators yield `n+1` fields, an empty
input yields one empty field). -/
def splitOnChar (c : Char) : List Char → List (List Char)
  | [] => [[]]
  | x :: xs =>
    if x == c then [] :: splitOnChar c xs
    else
      match splitOnChar c xs with
      | h :: t => (x :: h) :: t
      | [] => [[x]]

/-- Python `stdout.split('\n')`. -/
def py_split_nl (s : String) : List String :=
  (splitOnChar '\n' s.data).map (fun l => ⟨l⟩)

/-- `run_command(command, cwd, check)` from admin.py.

`subprocess.run(..., check=check)` raises `CalledProcessError` exactly
when `check` is set and the exit code is non-zero; the handler prints
"Command failed", prints the captured stderr, and (since `check` is
necessarily `True` there) calls `sys.exit(1)`. Otherwise the stripped
stdout/stderr and the return code are handed back. -/
def run_command (w : World) (command : String) (cwd : Option String) (check : Bool) :
    M (Option String × String × Int) := fun s =>
  let r := w.runCmd command cwd
  if check && r.returncode != 0 then
    let s1 := emitS s (error_s ("Command failed: " ++ command))
    let s2 := emitS s1 r.stderr
    if check then (s2, Except.error 1)
    else (s2, Except.ok (none, r.stderr, r.returncode))
  else
    (s, Except.ok (some (py_strip r.stdout), py_strip r.stderr, r.returncode))

/-- `check_git_status` from admin.py: `git status --porcelain` (strict),
dirty iff the stripped stdout is non-empty. -/
def check_git_status (w : World) : M Bool := do
  let (stdout, _, _) ← run_command w "git status --porcelain" none true
  pure (py_strip (pyStr stdout) != "")

/-- Lines 100–125 of admin.py: the part of `deploy_frontend` after the
dirty-tree prompt has been resolved (build, then publish). -/
def frontend_build_and_publish (w : World) : M Bool := do
  print_info "Building frontend..."
  let (_, stderr, code) ← run_command w "npm run build" none false
  if code != 0 then do
    print_error "Frontend build failed:"
    print_raw stderr
    pure false
  else do
    print_success "Frontend built successfully"
    print_info "Deploying to GitHub Pages..."
    let (_, stderr2, code2) ←
      run_command w ("npx gh-pages -d build -r " ++ GITHUB_REPO_URL) none false
    if code2 != 0 then do
      print_error "GitHub Pages deployment failed:"
      print_raw stderr2
      pure false
    else do
      print_success "Frontend deployed to GitHub Pages"
      print_info ("Frontend URL: " ++ GITHUB_PAGES_URL)
      pure true

/-- `deploy_frontend` from admin.py. -/
def deploy_frontend (w : World) : M Bool := do
  print_header "Deploying Frontend to GitHub Pages"
  let dirty ← check_git_status w
  if dirty then do
    print_warning "There are uncommitted changes in the repository."
    let response := py_lower (w.ask "Do you want to continue anyway? (y/n): ")
    if response != "y" then do
      print_info "Deployment cancelled."
      pure false
    else frontend_build_and_publish w
  else frontend_build_and_publish w

/-- Lines 134–139 of admin.py: the stage-and-commit block of
`deploy_backend`, entered when the tree is dirty. Note the two
`run_command` calls use the default `check=True` (strict). -/
def commit_stage (w : World) : M Unit := do
  print_warning "There are uncommitted changes in the repository."
  let response := py_lower (w.ask "Do you want to commit them before deployment? (y/n): ")
  if response == "y" then do
    let commit_msg := w.ask "Enter commit message: "
    let _ ← run_command w "git add ." none true
    let _ ← run_command w ("git commit -m \"" ++ commit_msg ++ "\"") none true
    print_success "Changes committed"
  else pure ()

/-- Lines 141–152 of admin.py: the push-to-Heroku part of
`deploy_backend` (non-strict). -/
def heroku_push (w : World) : M Bool := do
  print_info "Deploying to Heroku..."
  let (_, stderr, code) ← run_command w ("git push " ++ HEROKU_REMOTE ++ " main") none false
  if code != 0 then do
    print_error "Heroku deployment failed:"
    print_raw stderr
    pure false
  else do
    print_success "Backend deployed to Heroku"
    print_info ("Backend API URL: " ++ HEROKU_URL)
    pure true

/-- `deploy_backend` from admin.py. -/
def deploy_backend (w : World) : M Bool := do
  print_header "Deploying Backend to Heroku"
  let dirty ← check_git_status w
  if dirty then commit_stage w else pure ()
  heroku_push w

/-- Lines 160–168 of admin.py: classification of the GitHub Pages
health-check outcome. -/
def github_pages_check (r : HttpResult) : M Unit :=
  match r with
  | HttpResult.resp code _ =>
    if code == 200 then print_success "GitHub Pages is up and running"
    else print_warning ("GitHub Pages returned status code: " ++ toString code)
  | HttpResult.exc m => print_error ("Could not connect to GitHub Pages: " ++ m)

/-- Lines 172–185 of admin.py: classification of the Heroku health-check
outcome; on a 200, `response.json()` is attempted and a parse failure is
swallowed by `except: pass`. -/
def heroku_check (r : HttpResult) : M Unit :=
  match r with
  | HttpResult.resp code body =>
    if code == 200 then do
      print_success "Heroku API is up and running"
      match body with
      | some pretty => print_info ("API Status: " ++ pretty)
      | none => pure ()
    else print_warning ("Heroku API returned status code: " ++ toString code)
  | HttpResult.exc m => print_error ("Could not connect to Heroku API: " ++ m)

/-- `check_status` from admin.py. -/
def check_status (w : World) : M Unit := do
  print_header "Checking Deployment Status"
  print_info "Checking GitHub Pages status..."
  github_pages_check (w.get GITHUB_PAGES_URL)
  print_info "Checking Heroku status..."
  heroku_check (w.get HEROKU_API_HEALTH_URL)
  let (stdout, _, _) ← run_command w "git status -s" none true
  if pyStr stdout != "" then do
    print_warning "You have uncommitted changes:"
    print_raw (pyStr stdout)
  else print_success "Git repository is clean"

/-- `PROJECT_ROOT` is `dirname(abspath(__file__))`; the claims never
depend on its value, and `run_command`'s default working directory is
already represented by `cwd = none`, so the root is modelled as the empty
relative path. -/
def PROJECT_ROOT : String := ""

/-- POSIX `os.path.dirname` on the relative paths `git ls-files` emits:
everything before the final slash, `""` when there is none. -/
def os_path_dirname (p : String) : String :=
  let parts := p.splitOn "/"
  if parts.length ≤ 1 then "" else String.intercalate "/" parts.dropLast

/-- POSIX `os.path.join` for the two-argument uses in admin.py. -/
def os_path_join (a b : String) : String :=
  if b.startsWith "/" then b
  else if a == "" then b
  else if a.endsWith "/" then a ++ b
  else a ++ "/" ++ b

/-- `SERVER_DIR = os.path.join(PROJECT_ROOT, 'server')`. -/
def SERVER_DIR : String := os_path_join PROJECT_ROOT "server"

/-- `update_dependencies` from admin.py. -/
def update_dependencies (w : World) : M Unit := do
  print_header "Updating Dependencies"
  print_info "Updating frontend dependencies..."
  let (_, stderr, code) ← run_command w "npm update" none false
  if code != 0 then do
    print_error "Frontend dependency update failed:"
    print_raw stderr
  else print_success "Frontend dependencies updated"
  print_info "Updating backend dependencies..."
  let (_, stderr2, code2) ← run_command w "npm update" (some SERVER_DIR) false
  if code2 != 0 then do
    print_error "Backend dependency update failed:"
    print_raw stderr2
  else print_success "Backend dependencies updated"

/-- `os.makedirs(backup_dir, exist_ok=True)` for the top-level backup
directory: may raise (fault injection), otherwise the directory exists. -/
def makedirs_backup_dir : M Unit := fun s => ({ s with dirExists := true }, Except.ok ())

/-- Effect of a successful `git archive HEAD | tar -x -C backup_dir`:
the backup directory now holds exactly the tracked tree at HEAD. -/
def extract_head_tree (tree : List (String × String)) : M Unit := fun s =>
  ({ s with files := tree }, Except.ok ())

/-- Effect of `shutil.copy2(file, os.path.join(backup_dir, file))`:
the file appears under the backup directory at the same relative path. -/
def copy_into_backup (path content : String) : M Unit := fun s =>
  ({ s with files := s.files ++ [(path, content)] }, Except.ok ())

/-- Effect of a successful `tar -czf archive_name backup_dir`: the archive
holds a snapshot of everything currently under the backup directory. -/
def make_archive (name : String) : M Unit := fun s =>
  ({ s with archive := some (name, s.files) }, Except.ok ())

/-- Effect of `shutil.rmtree(backup_dir)`: directory and contents gone. -/
def rmtree_backup_dir : M Unit := fun s =>
  ({ s with dirExists := false, files := [] }, Except.ok ())

/-- Lines 241–246 of admin.py: the loop copying untracked files into the
backup directory. Empty names are skipped; `os.makedirs` on the
destination directory and `shutil.copy2` may raise (`Except.error`);
names failing `os.path.isfile` are skipped after the `makedirs`. -/
def copy_untracked (w : World) (backup_dir : String) :
    List String → M (Except String Unit)
  | [] => pure (Except.ok ())
  | file :: rest =>
    if file != "" then
      let dest_dir := os_path_join backup_dir (os_path_dirname file)
      match w.mkdirsErr dest_dir with
      | some e => pure (Except.error e)
      | none =>
        match w.fileContent file with
        | some c =>
          match w.copyErr file with
          | some e => pure (Except.error e)
          | none => do
            let _ ← copy_into_backup file c
            copy_untracked w backup_dir rest
        | none => copy_untracked w backup_dir rest
    else copy_untracked w backup_dir rest

/-- Lines 230–255 of admin.py: the body of `create_backup`'s `try:`
block. A returned `Except.error e` is a Python `Exception` with message
`e`, to be caught by the enclosing handler; `sys.exit(1)` raised inside
the strict `run_command` calls travels on `M`'s own error channel and is
NOT representable as an `Except.error`, matching CPython where
`SystemExit` does not derive from `Exception`. -/
def backup_try_body (w : World) (backup_dir : String) : M (Except String Unit) :=
  match w.mkdirsErr backup_dir with
  | some e => pure (Except.error e)
  | none => do
    let _ ← makedirs_backup_dir
    let _ ← run_command w ("git archive HEAD | tar -x -C " ++ backup_dir) none true
    let _ ← extract_head_tree w.headTree
    let (stdout, _, _) ← run_command w "git ls-files --others --exclude-standard" none true
    let untracked_files := py_split_nl (py_strip (pyStr stdout))
    let r ← copy_untracked w backup_dir untracked_files
    match r with
    | Except.error e => pure (Except.error e)
    | Except.ok _ => do
      let archive_name := backup_dir ++ ".tar.gz"
      let _ ← run_command w ("tar -czf " ++ archive_name ++ " " ++ backup_dir) none true
      let _ ← make_archive archive_name
      match w.rmtreeErr backup_dir with
      | some e => pure (Except.error e)
      | none => do
        let _ ← rmtree_backup_dir
        print_success ("Backup created: " ++ archive_name)
        pure (Except.ok ())

/-- `create_backup` from admin.py: header, dirty-tree warning, then the
`try:` body with `except Exception as e: print_error(f"Backup failed: ...")`. -/
def create_backup (w : World) : M Unit := do
  print_header "Creating Backup"
  let timestamp := w.now
  let backup_dir := "backup_" ++ timestamp
  let dirty ← check_git_status w
  if dirty then
    print_warning "There are uncommitted changes. These will be included in the backup."
  else pure ()
  let r ← backup_try_body w backup_dir
  match r with
  | Except.ok _ => pure ()
  | Except.error e => print_error ("Backup failed: " ++ e)

/-- `show_help` from admin.py. -/
def show_help : M Unit := do
  print_header "Resume Improvement Tool Admin Script"
  print_raw "Available commands:"
  print_raw "  deploy-frontend   - Deploy frontend to GitHub Pages"
  print_raw "  deploy-backend    - Deploy backend to Heroku"
  print_raw "  deploy-all        - Deploy both frontend and backend"
  print_raw "  status            - Check status of deployments"
  print_raw "  update-deps       - Update npm dependencies"
  print_raw "  backup            - Create a project backup"
  print_raw "  help              - Show this help information"
  print_raw "\nUsage: python admin.py [command]"

/-- `main` from admin.py, taking `sys.argv` (element 0 is the script
name). Called `admin_main` here only because Lean reserves the name
`main` for executable entry points. Falling through with `Except.ok ()`
is a normal interpreter exit, i.e. process status 0. -/
def admin_main (w : World) (argv : List String) : M Unit :=
  if argv.length < 2 then show_help
  else
    let command := py_lower (argv.getD 1 "")
    if command == "deploy-frontend" then do
      let _ ← deploy_frontend w
      pure ()
    else if command == "deploy-backend" then do
      let _ ← deploy_backend w
      pure ()
    else if command == "deploy-all" then do
      let frontend_ok ← deploy_frontend w
      let backend_ok ← deploy_backend w
      if frontend_ok && backend_ok then
        print_success "Both frontend and backend deployed successfully!"
      else
        print_warning "There were issues with the deployment. Check the logs above."
    else if command == "status" then check_status w
    else if command == "update-deps" then update_dependencies w
    else if command == "backup" then create_backup w
    else if command == "help" || command == "--help" || command == "-h" then show_help
    else do
      print_error ("Unknown command: " ++ command)
      show_help

/-!
Concrete worlds used by the witnesses below. `baseRun` makes every shell
command succeed silently; each scenario overrides the few calls it needs.
-/

/-- A run function under which every command exits 0 with empty output. -/
def baseRun : String → Option String → CmdResult := fun _ _ => ⟨"", "", 0⟩

/-- A quiet baseline world: clean repository, healthy endpoints, two
tracked files at HEAD, two untracked files on disk, no faults. -/
def testW : World :=
  { runCmd := baseRun
    ask := fun _ => ""
    get := fun _ => HttpResult.resp 200 none
    now := "20260101_120000"
    headTree := [("a.txt", "A"), ("src/b.txt", "B")]
    fileContent := fun p =>
      if p == "notes.txt" then some "N" else if p == "tmp/c.txt" then some "C" else none
    mkdirsErr := fun _ => none
    copyErr := fun _ => none
    rmtreeErr := fun _ => none }

/-- World in which one particular command fails. -/
def w_cmd_fail : World :=
  { testW with runCmd := fun c d => if c == "false-cmd" then ⟨"out", "err", 1⟩ else baseRun c d }

/-- World in which the frontend build fails but everything else works. -/
def w_all : World :=
  { testW with runCmd := fun c d =>
      if c == "npm run build" then ⟨"", "build broke", 1⟩ else baseRun c d }

/-- World with two untracked files reported by `git ls-files`. -/
def w_backup : World :=
  { testW with runCmd := fun c d =>
      if c == "git ls-files --others --exclude-standard" then ⟨"notes.txt\ntmp/c.txt", "", 0⟩
      else baseRun c d }

/-- World in which creating the backup directory raises `PermissionError`. -/
def w_mkdir_fail : World :=
  { testW with mkdirsErr := fun p =>
      if p == "backup_20260101_120000" then some "Permission denied" else none }

/-- World in which the `git archive | tar -x` pipeline exits non-zero. -/
def w_archive_fail : World :=
  { testW with runCmd := fun c d =>
      if c == "git archive HEAD | tar -x -C backup_20260101_120000" then
        ⟨"", "fatal: not a git repository", 1⟩
      else baseRun c d }

/-- World in which the Heroku push is rejected. -/
def w_push_fail : World :=
  { testW with runCmd := fun c d =>
      if c == "git push heroku main" then ⟨"", "denied", 1⟩ else baseRun c d }

/-- Dirty repository; the user agrees to commit, and `git add .` fails. -/
def w_commit_fail : World :=
  { testW with
    runCmd := fun c d =>
      if c == "git status --porcelain" then ⟨"M a.txt", "", 0⟩
      else if c == "git add ." then ⟨"", "index locked", 1⟩
      else baseRun c d
    ask := fun p =>
      if p == "Do you want to commit them before deployment? (y/n): " then "y"
      else if p == "Enter commit message: " then "wip" else "" }

/-- Dirty repository; the user declines the commit prompt. -/
def w_decline : World :=
  { testW with
    runCmd := fun c d =>
      if c == "git status --porcelain" then ⟨"M a.txt", "", 0⟩ else baseRun c d
    ask := fun _ => "n" }

/-!
Helper lemmas (shared by several claim theorems below).
-/

@[simp] theorem bind_eq {α β : Type} (m : M α) (f : α → M β) :
    (m >>= f) = bindM m f := rfl

@[simp] theorem pure_eq {α : Type} (a : α) : (pure a : M α) = pureM a := rfl

/-- Whatever faults the world injects, the untracked-file copy loop never
calls `sys.exit`: it only succeeds or raises a catchable exception. -/
theorem copy_untracked_no_exit (w : World) (d : String) :
    ∀ (l : List String) (s : BSt), ∃ t r, copy_untracked w d l s = (t, Except.ok r) := by
  intro l
  induction l with
  | nil => intro s; exact ⟨s, Except.ok (), rfl⟩
  | cons file rest ih =>
    intro s
    by_cases hf : file = ""
    · subst hf
      simpa [copy_untracked] using ih s
    · have hb : (file != "") = true := by simp [hf]
      rcases hmk : w.mkdirsErr (os_path_join d (os_path_dirname file)) with _ | e
      · rcases hfc : w.fileContent file with _ | c
        · simpa [copy_untracked, hb, hmk, hfc] using ih s
        · rcases hcp : w.copyErr file with _ | e
          · obtain ⟨t, r, ht⟩ := ih { s with files := s.files ++ [(file, c)] }
            exact ⟨t, r, by simp [copy_untracked, hb, hmk, hfc, hcp, bindM, copy_into_backup, ht]⟩
          · exact ⟨s, Except.error e, by simp [copy_untracked, hb, hmk, hfc, hcp, pureM]⟩
      · exact ⟨s, Except.error e, by simp [copy_untracked, hb, hmk, pureM]⟩

/-- When every listed name is a non-empty real file and no filesystem
fault is injected, the copy loop appends exactly those files, in order,
to the backup directory. -/
theorem copy_untracked_all_ok (w : World) (d : String) :
    ∀ (l : List String) (s : BSt),
      (∀ u ∈ l, u ≠ "" ∧ w.mkdirsErr (os_path_join d (os_path_dirname u)) = none
          ∧ w.copyErr u = none ∧ ∃ c, w.fileContent u = some c) →
      copy_untracked w d l s
        = ({ s with files := s.files ++ l.map (fun u => (u, (w.fileContent u).getD "")) },
           Except.ok (Except.ok ())) := by
  intro l
  induction l with
  | nil => intro s _; simp [copy_untracked, pureM]
  | cons file rest ih =>
    intro s hall
    obtain ⟨hne, hmk, hcp, c, hfc⟩ := hall file (List.mem_cons_self file rest)
    have hb : (file != "") = true := by simp [hne]
    have hrest : ∀ u ∈ rest, u ≠ "" ∧ w.mkdirsErr (os_path_join d (os_path_dirname u)) = none
        ∧ w.copyErr u = none ∧ ∃ c, w.fileContent u = some c :=
      fun u hu => hall u (List.mem_cons_of_mem file hu)
    have hr := ih { s with files := s.files ++ [(file, c)] } hrest
    simp [copy_untracked, hb, hmk, hfc, hcp, bindM, copy_into_backup, hr]

/-- If the three strict shell steps of the backup body exit 0, the body
itself never calls `sys.exit`; any injected filesystem fault surfaces as
a catchable `Except.error`. -/
theorem backup_try_body_no_exit (w : World) (bd : String)
    (h2 : (w.runCmd ("git archive HEAD | tar -x -C " ++ bd) none).returncode = 0)
    (h3 : (w.runCmd "git ls-files --others --exclude-standard" none).returncode = 0)
    (h4 : (w.runCmd ("tar -czf " ++ (bd ++ ".tar.gz") ++ " " ++ bd) none).returncode = 0) :
    ∀ s : BSt, ∃ t r, backup_try_body w bd s = (t, Except.ok r) := by
  intro s
  rcases hmk : w.mkdirsErr bd with _ | e
  · obtain ⟨t, r, hcu⟩ := copy_untracked_no_exit w bd
      (py_split_nl (py_strip (py_strip
        (w.runCmd "git ls-files --others --exclude-standard" none).stdout)))
      ⟨s.out, w.headTree, true, s.archive⟩
    rcases r with e | u
    · exact ⟨t, Except.error e, by
        simp [backup_try_body, hmk, bindM, makedirs_backup_dir, extract_head_tree,
          run_command, h2, h3, pyStr, pureM, hcu]⟩
    · rcases hrm : w.rmtreeErr bd with _ | e
      · exact ⟨⟨t.out ++ [success_s ("Backup created: " ++ (bd ++ ".tar.gz"))], [], false,
            some (bd ++ ".tar.gz", t.files)⟩, Except.ok (), by
          simp [backup_try_body, hmk, bindM, makedirs_backup_dir, extract_head_tree,
            run_command, h2, h3, h4, pyStr, pureM, hcu, make_archive, rmtree_backup_dir,
            print_success, print_raw, emitS, hrm]⟩
      · exact ⟨⟨t.out, t.files, t.dirExists, some (bd ++ ".tar.gz", t.files)⟩, Except.error e, by
          simp [backup_try_body, hmk, bindM, makedirs_backup_dir, extract_head_tree,
            run_command, h2, h3, h4, pyStr, pureM, hcu, make_archive, hrm]⟩
  · exact ⟨s, Except.error e, by simp [backup_try_body, hmk, pureM]⟩

/-- Fault-free run of the backup body: the archive snapshots the HEAD
tree followed by the listed untracked files, and the backup directory is
removed. -/
theorem backup_try_body_success (w : World) (bd : String) (us : List String)
    (h2 : (w.runCmd ("git archive HEAD | tar -x -C " ++ bd) none).returncode = 0)
    (h3 : (w.runCmd "git ls-files --others --exclude-standard" none).returncode = 0)
    (h4 : (w.runCmd ("tar -czf " ++ (bd ++ ".tar.gz") ++ " " ++ bd) none).returncode = 0)
    (hmk : w.mkdirsErr bd = none)
    (hrm : w.rmtreeErr bd = none)
    (hus : py_split_nl (py_strip (py_strip
        (w.runCmd "git ls-files --others --exclude-standard" none).stdout)) = us)
    (hall : ∀ u ∈ us, u ≠ "" ∧ w.mkdirsErr (os_path_join bd (os_path_dirname u)) = none
        ∧ w.copyErr u = none ∧ ∃ c, w.fileContent u = some c)
    (s : BSt) :
    backup_try_body w bd s
      = (⟨s.out ++ [success_s ("Backup created: " ++ (bd ++ ".tar.gz"))], [], false,
          some (bd ++ ".tar.gz", w.headTree ++ us.map (fun u => (u, (w.fileContent u).getD "")))⟩,
         Except.ok (Except.ok ())) := by
  have hcu := copy_untracked_all_ok w bd us ⟨s.out, w.headTree, true, s.archive⟩ hall
  simp [backup_try_body, hmk, hrm, bindM, makedirs_backup_dir, extract_head_tree, run_command,
    h2, h3, h4, pyStr, pureM, hus, hcu, make_archive, rmtree_backup_dir, print_success,
    print_raw, emitS]

/-- A computation that never takes the `sys.exit` channel. -/
def NoExit {α : Type} (m : M α) : Prop := ∀ s, ∃ t a, m s = (t, Except.ok a)

theorem noExit_bind {α β : Type} {m : M α} {f : α → M β}
    (hm : NoExit m) (hf : ∀ a, NoExit (f a)) : NoExit (bindM m f) := by
  intro s
  obtain ⟨t, a, h⟩ := hm s
  obtain ⟨t2, b, h2⟩ := hf a t
  exact ⟨t2, b, by simp [bindM, h, h2]⟩

theorem noExit_print_raw (l : String) : NoExit (print_raw l) := fun s => ⟨emitS s l, (), rfl⟩

theorem noExit_pureM {α : Type} (a : α) : NoExit (pureM a) := fun s => ⟨s, a, rfl⟩

theorem noExit_ite {α : Type} {c : Prop} [Decidable c] {m f : M α}
    (hm : NoExit m) (hf : NoExit f) : NoExit (if c then m else f) := by
  by_cases h : c
  · simpa [h] using hm
  · simpa [h] using hf

/-- The GitHub Pages classification never terminates the program. -/
theorem noExit_github_pages_check (r : HttpResult) : NoExit (github_pages_check r) := by
  cases r with
  | resp c j => exact noExit_ite (noExit_print_raw _) (noExit_print_raw _)
  | exc m => exact noExit_print_raw _

/-- The Heroku classification never terminates the program. -/
theorem noExit_heroku_check (r : HttpResult) : NoExit (heroku_check r) := by
  cases r with
  | resp c j =>
    refine noExit_ite ?_ (noExit_print_raw _)
    cases j with
    | none => exact noExit_bind (noExit_print_raw _) (fun _ => noExit_pureM _)
    | some b => exact noExit_bind (noExit_print_raw _) (fun _ => noExit_print_raw _)
  | exc m => exact noExit_print_raw _

/-- Whatever the two HTTP outcomes are, `check_status` only exits through
its trailing strict `git status -s`; when that returns 0 the whole
procedure falls through normally. -/
theorem noExit_check_status (w : World)
    (h : (w.runCmd "git status -s" none).returncode = 0) : NoExit (check_status w) := by
  unfold check_status
  simp only [bind_eq, pure_eq]
  refine noExit_bind (noExit_print_raw _) (fun _ => ?_)
  refine noExit_bind (noExit_print_raw _) (fun _ => ?_)
  refine noExit_bind (noExit_github_pages_check _) (fun _ => ?_)
  refine noExit_bind (noExit_print_raw _) (fun _ => ?_)
  refine noExit_bind (noExit_heroku_check _) (fun _ => ?_)
  refine noExit_bind ?_ (fun a => ?_)
  · intro s0
    exact ⟨s0, (some (py_strip (w.runCmd "git status -s" none).stdout),
        py_strip (w.runCmd "git status -s" none).stderr,
        (w.runCmd "git status -s" none).returncode), by simp [run_command, h]⟩
  · refine noExit_ite ?_ ?_
    · exact noExit_bind (noExit_print_raw _) (fun _ => noExit_print_raw _)
    · exact noExit_print_raw _

/-!
Claim theorems.
-/

/-- Claim C1, counterexample. The claim says every exception raised during
the backup sequence (directory creation, git-archive export, untracked
copying, compression, cleanup) is caught and reported as a generic backup
failure and the program exits 0. In the concrete world `w_archive_fail`
the git-archive export exits non-zero; the strict `run_command` turns
this into `sys.exit(1)` (a `SystemExit`, which `except Exception` cannot
catch), so the run prints "Command failed", never prints "Backup failed",
and terminates with exit code 1, not 0. -/
theorem create_backup_archive_failure_exits_nonzero :
    create_backup w_archive_fail initSt
      = (⟨[header_s "Creating Backup",
           error_s "Command failed: git archive HEAD | tar -x -C backup_20260101_120000",
           "fatal: not a git repository"], [], true, none⟩,
         Except.error 1) := rfl

/-- Claim C1, amended: every Python `Exception` raised during the backup
sequence by `os.makedirs`, `shutil.copy2` or `shutil.rmtree` is caught
and reported as a generic "Backup failed" message and the program exits
0; however, if one of the strict shell steps (git-archive export,
untracked enumeration, compression) exits non-zero, the process runner
terminates the program with exit code 1 before the catch-all can see it.
Formally: whenever the strict commands all exit 0, `create_backup` falls
through normally no matter what filesystem faults the world injects, and
when the backup-directory creation raises, the last printed line is the
generic failure message. -/
theorem create_backup_catches_filesystem_exceptions (w : World) (s : BSt)
    (h1 : (w.runCmd "git status --porcelain" none).returncode = 0)
    (h2 : (w.runCmd ("git archive HEAD | tar -x -C " ++ ("backup_" ++ w.now)) none).returncode = 0)
    (h3 : (w.runCmd "git ls-files --others --exclude-standard" none).returncode = 0)
    (h4 : (w.runCmd ("tar -czf " ++ (("backup_" ++ w.now) ++ ".tar.gz") ++ " "
        ++ ("backup_" ++ w.now)) none).returncode = 0) :
    (create_backup w s).2 = Except.ok ()
    ∧ ∀ e, w.mkdirsErr ("backup_" ++ w.now) = some e →
        ∃ pre, (create_backup w s).1.out = pre ++ [error_s ("Backup failed: " ++ e)] := by
  constructor
  · obtain ⟨t, r, hbody⟩ := backup_try_body_no_exit w ("backup_" ++ w.now) h2 h3 h4
      (emitS s (header_s "Creating Backup"))
    obtain ⟨t', r', hbody'⟩ := backup_try_body_no_exit w ("backup_" ++ w.now) h2 h3 h4
      (emitS (emitS s (header_s "Creating Backup"))
        (warning_s "There are uncommitted changes. These will be included in the backup."))
    cases hb : (py_strip (py_strip (w.runCmd "git status --porcelain" none).stdout) != "")
    · rcases r with e | u <;>
        simp [create_backup, bindM, print_header, print_warning, print_error, print_raw,
          check_git_status, run_command, h1, pyStr, pureM, hb, hbody]
    · rcases r' with e | u <;>
        simp [create_backup, bindM, print_header, print_warning, print_error, print_raw,
          check_git_status, run_command, h1, pyStr, pureM, hb, hbody']
  · intro e he
    cases hb : (py_strip (py_strip (w.runCmd "git status --porcelain" none).stdout) != "")
    · exact ⟨s.out ++ [header_s "Creating Backup"], by
        simp [create_backup, backup_try_body, he, bindM, print_header, print_warning,
          print_error, print_raw, check_git_status, run_command, h1, pyStr, pureM, hb, emitS]⟩
    · exact ⟨s.out ++ [header_s "Creating Backup",
          warning_s "There are uncommitted changes. These will be included in the backup."], by
        simp [create_backup, backup_try_body, he, bindM, print_header, print_warning,
          print_error, print_raw, check_git_status, run_command, h1, pyStr, pureM, hb, emitS]⟩

/-- Witness for C1's amended theorem: in `w_mkdir_fail` the backup
directory creation raises "Permission denied"; the run still falls
through normally (exit 0) and its last output line is the generic
backup-failure message. -/
theorem create_backup_catches_filesystem_exceptions_witness :
    (create_backup w_mkdir_fail initSt).2 = Except.ok ()
    ∧ ∃ pre, (create_backup w_mkdir_fail initSt).1.out
        = pre ++ [error_s ("Backup failed: " ++ "Permission denied")] := by
  have h := create_backup_catches_filesystem_exceptions w_mkdir_fail initSt
    (by decide) (by decide) (by decide) (by decide)
  exact ⟨h.1, h.2 "Permission denied" (by decide)⟩

/-- Claim C2: the process runner captures (stdout, stderr, exit code).
On non-zero exit with the strict flag set it prints "Command failed" and
the captured standard error, then terminates the whole program with exit
code 1; with the strict flag unset it hands the triple back to the
caller without terminating. -/
theorem run_command_strict_and_nonstrict (w : World) (command : String) (cwd : Option String)
    (s : BSt) (h : (w.runCmd command cwd).returncode ≠ 0) :
    run_command w command cwd true s
      = (emitS (emitS s (error_s ("Command failed: " ++ command))) (w.runCmd command cwd).stderr,
         Except.error 1)
    ∧ run_command w command cwd false s
      = (s, Except.ok (some (py_strip (w.runCmd command cwd).stdout),
            py_strip (w.runCmd command cwd).stderr, (w.runCmd command cwd).returncode)) := by
  constructor
  · simp [run_command, h]
  · simp [run_command]

/-- Witness for C2 at the failing command of `w_cmd_fail`. -/
theorem run_command_strict_and_nonstrict_witness :
    run_command w_cmd_fail "false-cmd" none true initSt
      = (emitS (emitS initSt (error_s ("Command failed: " ++ "false-cmd")))
          (w_cmd_fail.runCmd "false-cmd" none).stderr, Except.error 1)
    ∧ run_command w_cmd_fail "false-cmd" none false initSt
      = (initSt, Except.ok (some (py_strip (w_cmd_fail.runCmd "false-cmd" none).stdout),
          py_strip (w_cmd_fail.runCmd "false-cmd" none).stderr,
          (w_cmd_fail.runCmd "false-cmd" none).returncode)) :=
  run_command_strict_and_nonstrict w_cmd_fail "false-cmd" none initSt (by decide)

/-- Claim C3: whatever boolean the frontend deploy step returns, the
`deploy-all` dispatch still runs the backend deploy step (no
short-circuit), and the summary line is the all-success message exactly
when the AND of the two returned booleans is true, otherwise the
partial-failure warning. -/
theorem deploy_all_runs_both_and_ands (w : World) (s s1 s2 : BSt) (b1 b2 : Bool)
    (hf : deploy_frontend w s = (s1, Except.ok b1))
    (hb : deploy_backend w s1 = (s2, Except.ok b2)) :
    admin_main w ["admin.py", "deploy-all"] s
      = (emitS s2 (if b1 && b2 then success_s "Both frontend and backend deployed successfully!"
                   else warning_s "There were issues with the deployment. Check the logs above."),
         Except.ok ()) := by
  have e0 : admin_main w ["admin.py", "deploy-all"] s
      = bindM (deploy_frontend w) (fun frontend_ok =>
          bindM (deploy_backend w) (fun backend_ok =>
            if frontend_ok && backend_ok then
              print_success "Both frontend and backend deployed successfully!"
            else
              print_warning "There were issues with the deployment. Check the logs above.")) s := rfl
  rw [e0]
  cases b1 <;> cases b2 <;>
    simp [bindM, hf, hb, print_success, print_warning, print_raw]

/-- Witness for C3: in `w_all` the frontend build fails (frontend step
returns false) yet the backend step still runs and succeeds; the summary
is the partial-failure warning since false AND true is false. -/
theorem deploy_all_runs_both_and_ands_witness :
    admin_main w_all ["admin.py", "deploy-all"] initSt
      = (emitS ⟨[header_s "Deploying Frontend to GitHub Pages", info_s "Building frontend...",
            error_s "Frontend build failed:", "build broke",
            header_s "Deploying Backend to Heroku", info_s "Deploying to Heroku...",
            success_s "Backend deployed to Heroku",
            info_s ("Backend API URL: " ++ HEROKU_URL)], [], false, none⟩
          (if false && true then success_s "Both frontend and backend deployed successfully!"
           else warning_s "There were issues with the deployment. Check the logs above."),
         Except.ok ()) :=
  deploy_all_runs_both_and_ands w_all initSt
    ⟨[header_s "Deploying Frontend to GitHub Pages", info_s "Building frontend...",
      error_s "Frontend build failed:", "build broke"], [], false, none⟩
    ⟨[header_s "Deploying Frontend to GitHub Pages", info_s "Building frontend...",
      error_s "Frontend build failed:", "build broke",
      header_s "Deploying Backend to Heroku", info_s "Deploying to Heroku...",
      success_s "Backend deployed to Heroku",
      info_s ("Backend API URL: " ++ HEROKU_URL)], [], false, none⟩
    false true rfl rfl

/-- Claim C4: any first argument whose lower-casing is outside the fixed
command set makes the dispatcher print an error naming the (lowered)
unknown command, then print the full help table, and fall through with
exit code 0. -/
theorem unknown_command_prints_error_and_help (w : World) (s : BSt) (cmd : String)
    (h1 : py_lower cmd ≠ "deploy-frontend") (h2 : py_lower cmd ≠ "deploy-backend")
    (h3 : py_lower cmd ≠ "deploy-all") (h4 : py_lower cmd ≠ "status")
    (h5 : py_lower cmd ≠ "update-deps") (h6 : py_lower cmd ≠ "backup")
    (h7 : py_lower cmd ≠ "help") (h8 : py_lower cmd ≠ "--help") (h9 : py_lower cmd ≠ "-h") :
    admin_main w ["admin.py", cmd] s
      = show_help (emitS s (error_s ("Unknown command: " ++ py_lower cmd)))
    ∧ (admin_main w ["admin.py", cmd] s).2 = Except.ok () := by
  have e : admin_main w ["admin.py", cmd] s
      = show_help (emitS s (error_s ("Unknown command: " ++ py_lower cmd))) := by
    simp [admin_main, h1, h2, h3, h4, h5, h6, h7, h8, h9, bindM, print_error, print_raw]
  refine ⟨e, ?_⟩
  rw [e]
  rfl

/-- Witness for C4 at the unknown command "Frobnicate". -/
theorem unknown_command_prints_error_and_help_witness :
    admin_main testW ["admin.py", "Frobnicate"] initSt
      = show_help (emitS initSt (error_s ("Unknown command: " ++ py_lower "Frobnicate")))
    ∧ (admin_main testW ["admin.py", "Frobnicate"] initSt).2 = Except.ok () :=
  unknown_command_prints_error_and_help testW initSt "Frobnicate"
    (by decide) (by decide) (by decide) (by decide) (by decide)
    (by decide) (by decide) (by decide) (by decide)

/-- Claim C5: each of the two HTTP health checks classifies its outcome —
a 200 response prints the healthy/success line; any other status code
prints a warning containing that code; a raised exception prints an
error containing the exception text. A failure to parse the backend
response body is silently ignored (only the success line is printed),
and as long as the trailing strict git command exits 0 the whole status
procedure falls through normally — no HTTP outcome terminates it. -/
theorem status_checks_classification :
    (∀ (j : Option String) (s : BSt), github_pages_check (HttpResult.resp 200 j) s
        = (emitS s (success_s "GitHub Pages is up and running"), Except.ok ()))
    ∧ (∀ (c : Int) (j : Option String) (s : BSt), c ≠ 200 →
        github_pages_check (HttpResult.resp c j) s
          = (emitS s (warning_s ("GitHub Pages returned status code: " ++ toString c)),
             Except.ok ()))
    ∧ (∀ (m : String) (s : BSt), github_pages_check (HttpResult.exc m) s
        = (emitS s (error_s ("Could not connect to GitHub Pages: " ++ m)), Except.ok ()))
    ∧ (∀ (b : String) (s : BSt), heroku_check (HttpResult.resp 200 (some b)) s
        = (emitS (emitS s (success_s "Heroku API is up and running"))
            (info_s ("API Status: " ++ b)), Except.ok ()))
    ∧ (∀ s : BSt, heroku_check (HttpResult.resp 200 none) s
        = (emitS s (success_s "Heroku API is up and running"), Except.ok ()))
    ∧ (∀ (c : Int) (j : Option String) (s : BSt), c ≠ 200 →
        heroku_check (HttpResult.resp c j) s
          = (emitS s (warning_s ("Heroku API returned status code: " ++ toString c)),
             Except.ok ()))
    ∧ (∀ (m : String) (s : BSt), heroku_check (HttpResult.exc m) s
        = (emitS s (error_s ("Could not connect to Heroku API: " ++ m)), Except.ok ()))
    ∧ (∀ (w : World) (s : BSt), (w.runCmd "git status -s" none).returncode = 0 →
        (check_status w s).2 = Except.ok ()) := by
  refine ⟨?_, ?_, ?_, ?_, ?_, ?_, ?_, ?_⟩
  · intro j s; rfl
  · intro c j s hc
    simp [github_pages_check, hc, print_warning, print_raw]
  · intro m s; rfl
  · intro b s; rfl
  · intro s; rfl
  · intro c j s hc
    simp [heroku_check, hc, print_warning, print_raw]
  · intro m s; rfl
  · intro w s h
    obtain ⟨t, a, hcs⟩ := noExit_check_status w h s
    rw [hcs]

/-- Witness for C5: the classifications at concrete outcomes (200, 500,
connection refused, parse failure, 503, timeout) and the fully healthy
world `testW`. -/
theorem status_checks_classification_witness :
    github_pages_check (HttpResult.resp 200 none) initSt
      = (emitS initSt (success_s "GitHub Pages is up and running"), Except.ok ())
    ∧ github_pages_check (HttpResult.resp 500 none) initSt
      = (emitS initSt (warning_s ("GitHub Pages returned status code: " ++ toString (500 : Int))),
         Except.ok ())
    ∧ github_pages_check (HttpResult.exc "connection refused") initSt
      = (emitS initSt (error_s ("Could not connect to GitHub Pages: " ++ "connection refused")),
         Except.ok ())
    ∧ heroku_check (HttpResult.resp 200 (some "ok")) initSt
      = (emitS (emitS initSt (success_s "Heroku API is up and running"))
          (info_s ("API Status: " ++ "ok")), Except.ok ())
    ∧ heroku_check (HttpResult.resp 200 none) initSt
      = (emitS initSt (success_s "Heroku API is up and running"), Except.ok ())
    ∧ heroku_check (HttpResult.resp 503 none) initSt
      = (emitS initSt (warning_s ("Heroku API returned status code: " ++ toString (503 : Int))),
         Except.ok ())
    ∧ heroku_check (HttpResult.exc "timeout") initSt
      = (emitS initSt (error_s ("Could not connect to Heroku API: " ++ "timeout")), Except.ok ())
    ∧ (check_status testW initSt).2 = Except.ok () :=
  ⟨status_checks_classification.1 none initSt,
   status_checks_classification.2.1 500 none initSt (by decide),
   status_checks_classification.2.2.1 "connection refused" initSt,
   status_checks_classification.2.2.2.1 "ok" initSt,
   status_checks_classification.2.2.2.2.1 initSt,
   status_checks_classification.2.2.2.2.2.1 503 none initSt (by decide),
   status_checks_classification.2.2.2.2.2.2.1 "timeout" initSt,
   status_checks_classification.2.2.2.2.2.2.2 testW initSt (by decide)⟩

/-- Claim C6: on a fault-free backup run (all strict commands exit 0, no
filesystem exception, every enumerated untracked name a real non-empty
file), the produced archive is named `backup_<timestamp>.tar.gz` and its
contents are exactly the HEAD tree followed by the enumerated untracked
files, each at its original relative path with its original content; the
intermediate uncompressed backup directory no longer exists afterwards. -/
theorem backup_archive_contains_tracked_and_untracked (w : World) (s : BSt) (us : List String)
    (h1 : (w.runCmd "git status --porcelain" none).returncode = 0)
    (h2 : (w.runCmd ("git archive HEAD | tar -x -C " ++ ("backup_" ++ w.now)) none).returncode = 0)
    (h3 : (w.runCmd "git ls-files --others --exclude-standard" none).returncode = 0)
    (h4 : (w.runCmd ("tar -czf " ++ (("backup_" ++ w.now) ++ ".tar.gz") ++ " "
        ++ ("backup_" ++ w.now)) none).returncode = 0)
    (hmk : w.mkdirsErr ("backup_" ++ w.now) = none)
    (hrm : w.rmtreeErr ("backup_" ++ w.now) = none)
    (hus : py_split_nl (py_strip (py_strip
        (w.runCmd "git ls-files --others --exclude-standard" none).stdout)) = us)
    (hall : ∀ u ∈ us, u ≠ ""
        ∧ w.mkdirsErr (os_path_join ("backup_" ++ w.now) (os_path_dirname u)) = none
        ∧ w.copyErr u = none ∧ ∃ c, w.fileContent u = some c) :
    (create_backup w s).2 = Except.ok ()
    ∧ (create_backup w s).1.archive
        = some (("backup_" ++ w.now) ++ ".tar.gz",
            w.headTree ++ us.map (fun u => (u, (w.fileContent u).getD "")))
    ∧ (create_backup w s).1.dirExists = false
    ∧ (create_backup w s).1.files = [] := by
  have hbody := backup_try_body_success w ("backup_" ++ w.now) us h2 h3 h4 hmk hrm hus hall
  cases hb : (py_strip (py_strip (w.runCmd "git status --porcelain" none).stdout) != "") <;>
    simp [create_backup, bindM, print_header, print_warning, print_raw, check_git_status,
      run_command, h1, pyStr, pureM, hb, hbody]

/-- Witness for C6: in `w_backup` the repository has tracked files
a.txt and src/b.txt at HEAD and untracked files notes.txt and tmp/c.txt;
the archive holds exactly those four entries and the backup directory is
gone. -/
theorem backup_archive_contains_tracked_and_untracked_witness :
    (create_backup w_backup initSt).2 = Except.ok ()
    ∧ (create_backup w_backup initSt).1.archive
        = some (("backup_" ++ w_backup.now) ++ ".tar.gz",
            w_backup.headTree
              ++ ["notes.txt", "tmp/c.txt"].map (fun u => (u, (w_backup.fileContent u).getD "")))
    ∧ (create_backup w_backup initSt).1.dirExists = false
    ∧ (create_backup w_backup initSt).1.files = [] :=
  backup_archive_contains_tracked_and_untracked w_backup initSt ["notes.txt", "tmp/c.txt"]
    (by decide) (by decide) (by decide) (by decide) (by decide) (by decide) (by decide)
    (by
      intro u hu
      simp only [List.mem_cons, List.not_mem_nil, or_false] at hu
      rcases hu with rfl | rfl
      · exact ⟨by decide, rfl, rfl, "N", rfl⟩
      · exact ⟨by decide, rfl, rfl, "C", rfl⟩)

/-- Claim C7: invoking the program with no argument produces exactly the
same run (byte-identical output, same final state) as invoking it with
the `help` command, and both fall through with exit code 0. -/
theorem no_args_matches_help (w : World) (s : BSt) :
    admin_main w ["admin.py"] s = admin_main w ["admin.py", "help"] s
    ∧ (admin_main w ["admin.py"] s).2 = Except.ok () := by
  constructor
  · rfl
  · rfl

/-- Claim C8: with a clean tree (so the optional commit stage is
skipped), the backend deploy runs the fixed push command
`git push heroku main` in non-strict mode; on non-zero exit it prints
the failure and the captured stderr and returns false without
terminating, and on success it prints the success line and the backend
URL and returns true. -/
theorem deploy_backend_push_contract (w : World) (s : BSt)
    (h1 : (w.runCmd "git status --porcelain" none).returncode = 0)
    (hclean : py_strip (py_strip (w.runCmd "git status --porcelain" none).stdout) = "") :
    ((w.runCmd "git push heroku main" none).returncode ≠ 0 →
      deploy_backend w s
        = (emitS (emitS (emitS (emitS s (header_s "Deploying Backend to Heroku"))
            (info_s "Deploying to Heroku..."))
            (error_s "Heroku deployment failed:"))
            (py_strip (w.runCmd "git push heroku main" none).stderr),
           Except.ok false))
    ∧ ((w.runCmd "git push heroku main" none).returncode = 0 →
      deploy_backend w s
        = (emitS (emitS (emitS (emitS s (header_s "Deploying Backend to Heroku"))
            (info_s "Deploying to Heroku..."))
            (success_s "Backend deployed to Heroku"))
            (info_s ("Backend API URL: " ++ HEROKU_URL)),
           Except.ok true)) := by
  have ecmd : "git push " ++ HEROKU_REMOTE ++ " main" = "git push heroku main" := rfl
  constructor <;> intro hp <;>
    simp [deploy_backend, heroku_push, bindM, check_git_status, run_command, h1, hclean,
      pyStr, pureM, print_header, print_info, print_error, print_success, print_raw, ecmd, hp]

/-- Witness for C8: in `w_push_fail` the push is rejected, the failure
branch fires and the deploy returns false without exiting. -/
theorem deploy_backend_push_contract_witness :
    ((w_push_fail.runCmd "git push heroku main" none).returncode ≠ 0 →
      deploy_backend w_push_fail initSt
        = (emitS (emitS (emitS (emitS initSt (header_s "Deploying Backend to Heroku"))
            (info_s "Deploying to Heroku..."))
            (error_s "Heroku deployment failed:"))
            (py_strip (w_push_fail.runCmd "git push heroku main" none).stderr),
           Except.ok false))
    ∧ ((w_push_fail.runCmd "git push heroku main" none).returncode = 0 →
      deploy_backend w_push_fail initSt
        = (emitS (emitS (emitS (emitS initSt (header_s "Deploying Backend to Heroku"))
            (info_s "Deploying to Heroku..."))
            (success_s "Backend deployed to Heroku"))
            (info_s ("Backend API URL: " ++ HEROKU_URL)),
           Except.ok true)) :=
  deploy_backend_push_contract w_push_fail initSt (by decide) (by decide)

/-- Claim C9: in the stage-and-commit block of the backend deploy, the
`git add .` and `git commit` invocations run with the process runner's
default strict flag; if either exits non-zero, the runner prints
"Command failed" with the captured stderr and terminates the whole
program with exit code 1 — the deploy function never gets to report
locally or return false. -/
theorem deploy_backend_commit_strict_exits (w : World) (s : BSt)
    (h1 : (w.runCmd "git status --porcelain" none).returncode = 0)
    (hdirty : py_strip (py_strip (w.runCmd "git status --porcelain" none).stdout) ≠ "")
    (hyes : py_lower (w.ask "Do you want to commit them before deployment? (y/n): ") = "y") :
    ((w.runCmd "git add ." none).returncode ≠ 0 →
      deploy_backend w s
        = (emitS (emitS (emitS (emitS s (header_s "Deploying Backend to Heroku"))
            (warning_s "There are uncommitted changes in the repository."))
            (error_s "Command failed: git add ."))
            (w.runCmd "git add ." none).stderr,
           Except.error 1))
    ∧ ((w.runCmd "git add ." none).returncode = 0 →
       (w.runCmd ("git commit -m \"" ++ w.ask "Enter commit message: " ++ "\"") none).returncode ≠ 0 →
      deploy_backend w s
        = (emitS (emitS (emitS (emitS s (header_s "Deploying Backend to Heroku"))
            (warning_s "There are uncommitted changes in the repository."))
            (error_s ("Command failed: "
              ++ ("git commit -m \"" ++ w.ask "Enter commit message: " ++ "\""))))
            (w.runCmd ("git commit -m \"" ++ w.ask "Enter commit message: " ++ "\"") none).stderr,
           Except.error 1)) := by
  constructor
  · intro ha
    simp [deploy_backend, commit_stage, bindM, check_git_status, run_command, h1, hdirty,
      hyes, pyStr, pureM, print_header, print_warning, print_error, print_raw, ha]
  · intro ha hc
    simp [deploy_backend, commit_stage, bindM, check_git_status, run_command, h1, hdirty,
      hyes, pyStr, pureM, print_header, print_warning, print_error, print_raw, ha, hc]

/-- Witness for C9: in `w_commit_fail` the tree is dirty, the user
answers "y", and `git add .` fails; the whole program terminates with
exit code 1. -/
theorem deploy_backend_commit_strict_exits_witness :
    ((w_commit_fail.runCmd "git add ." none).returncode ≠ 0 →
      deploy_backend w_commit_fail initSt
        = (emitS (emitS (emitS (emitS initSt (header_s "Deploying Backend to Heroku"))
            (warning_s "There are uncommitted changes in the repository."))
            (error_s "Command failed: git add ."))
            (w_commit_fail.runCmd "git add ." none).stderr,
           Except.error 1))
    ∧ ((w_commit_fail.runCmd "git add ." none).returncode = 0 →
       (w_commit_fail.runCmd ("git commit -m \""
          ++ w_commit_fail.ask "Enter commit message: " ++ "\"") none).returncode ≠ 0 →
      deploy_backend w_commit_fail initSt
        = (emitS (emitS (emitS (emitS initSt (header_s "Deploying Backend to Heroku"))
            (warning_s "There are uncommitted changes in the repository."))
            (error_s ("Command failed: "
              ++ ("git commit -m \"" ++ w_commit_fail.ask "Enter commit message: " ++ "\""))))
            (w_commit_fail.runCmd ("git commit -m \""
              ++ w_commit_fail.ask "Enter commit message: " ++ "\"") none).stderr,
           Except.error 1)) :=
  deploy_backend_commit_strict_exits w_commit_fail initSt (by decide) (by decide) (by decide)

/-- Claim C10: when the tree is dirty and the user answers anything
other than "y" at the commit prompt, the backend deploy does not abort:
it merely skips the stage-and-commit step and proceeds directly to the
Heroku push block. -/
theorem deploy_backend_decline_still_pushes (w : World) (s : BSt)
    (h1 : (w.runCmd "git status --porcelain" none).returncode = 0)
    (hdirty : py_strip (py_strip (w.runCmd "git status --porcelain" none).stdout) ≠ "")
    (hno : py_lower (w.ask "Do you want to commit them before deployment? (y/n): ") ≠ "y") :
    deploy_backend w s
      = heroku_push w (emitS (emitS s (header_s "Deploying Backend to Heroku"))
          (warning_s "There are uncommitted changes in the repository.")) := by
  simp [deploy_backend, commit_stage, bindM, check_git_status, run_command, h1, hdirty, hno,
    pyStr, pureM, print_header, print_warning, print_raw]

/-- Witness for C10: in `w_decline` the user answers "n"; the deploy
still reaches the push block. -/
theorem deploy_backend_decline_still_pushes_witness :
    deploy_backend w_decline initSt
      = heroku_push w_decline (emitS (emitS initSt (header_s "Deploying Backend to Heroku"))
          (warning_s "There are uncommitted changes in the repository.")) :=
  deploy_backend_decline_still_pushes w_decline initSt (by decide) (by decide) (by decide)
